import Mathlib

/-!
Verification of the request-handling pipeline of the `tradingui` FastAPI proxy
(`src/tradingui/api.py`): cache key derivation (`_cache_filename`), the
sliding-window rate limiter (`_rate_limit_check`), HTTP basic authentication
(`_verify_basic`), and the `download` endpoint's cache / upstream-fetch /
degraded-fallback logic.

Modelling conventions:
* Python strings are sequences of code points; string operations used by the
  code (`str.replace` with single-character patterns, `in` substring test,
  `str.lower`, `str.endswith`, `sorted` lexicographic order) are modelled on
  `String.data : List Char`, which compares characters by code point exactly
  as Python does.
* Timestamps (`time.time()`, `os.path.getmtime`) and durations are rationals
  (`ℚ`); Python `int()` applied to a nonnegative value is the floor.
* `Optional[str]` parameters are `Option String`; Python truthiness of such a
  value (`period or start or 'latest'`, `if end`, `_AUTH_USER and _AUTH_PASS`)
  is `truthy`: `none` and the empty string are falsy.
* The effects of one request are captured by explicit state passing: the rate
  limiter maps a stored timestamp list to a decision and the new stored list;
  the `download` handler reads an `Env` describing the cache entry for the
  derived key, the fetcher's data directory, and the outcome of the
  `fetcher.fetch_data` call, and returns the response together with the cache
  state after the request.
-/

namespace Tradingui

/-- Lexicographic `≤` on code-point sequences: the order Python uses to
compare and sort strings (and the order of Lean's `String.le`). -/
def lexLe : List Char → List Char → Bool
  | [], _ => true
  | _ :: _, [] => false
  | a :: as, b :: bs => if a < b then true else if b < a then false else lexLe as bs

/-- `needle` occurs at the start of `hay` (Python `str.startswith`). -/
def listPrefixOf : List Char → List Char → Bool
  | [], _ => true
  | _ :: _, [] => false
  | a :: as, b :: bs => a = b && listPrefixOf as bs

/-- `needle` occurs somewhere in `hay` (Python `needle in hay`). -/
def listInfixOf (needle : List Char) : List Char → Bool
  | [] => needle.isEmpty
  | c :: t => listPrefixOf needle (c :: t) || listInfixOf needle t

/-- Python `needle in hay` on strings. -/
def strContains (hay needle : String) : Bool := listInfixOf needle.data hay.data

/-- Python `s.endswith(suffix)`. -/
def strEndsWith (s suffix : String) : Bool :=
  listPrefixOf suffix.data.reverse s.data.reverse

/-- Python `s.lower()` (per-character lowercasing). -/
def strLower (s : String) : String := ⟨s.data.map Char.toLower⟩

/-- Python `a <= b` on strings: code-point lexicographic order. -/
def strLe (a b : String) : Bool := lexLe a.data b.data

/-- Python `s.replace(pat, rep)` for a single-character pattern `pat`:
every occurrence of the character is replaced by `rep`. -/
def replaceChar (s : List Char) (pat : Char) (rep : List Char) : List Char :=
  (s.map (fun c => if c = pat then rep else [c])).flatten

/-- Python `int(x)` on a rational: truncation toward zero. -/
def pyInt (x : ℚ) : ℤ := if 0 ≤ x then ⌊x⌋ else -⌊-x⌋

/-- Python truthiness of an `Optional[str]` value: `None` and `''` are falsy. -/
def truthy : Option String → Bool
  | none => false
  | some s => !s.data.isEmpty

/-- Python `a or b` for an `Optional[str]` first operand and a string
default: the first operand when truthy, else the default. -/
def pyOr (a : Option String) (b : String) : String :=
  match a with
  | some s => if s.data.isEmpty then b else s
  | none => b

/-- `api._cache_filename(symbol, start, end, period, interval)` — the cache
key (filename, without the cache directory prefix that `os.path.join` adds):
`safe = symbol.replace('/', '').replace(' ', '_')`;
`tag = period or start or 'latest'`;
`end_tag = ('_' + end) if end else ''`;
`interval_tag = ('_' + interval) if interval else ''`;
`name = f"{safe}_{tag}{end_tag}{interval_tag}.csv"`. -/
def _cache_filename (symbol : String) (start end_ period interval : Option String) :
    String :=
  let safe : String := ⟨replaceChar (replaceChar symbol.data '/' []) ' ' ['_']⟩
  let tag : String := pyOr period (pyOr start "latest")
  let endTag : String := if truthy end_ then "_" ++ end_.getD "" else ""
  let intervalTag : String := if truthy interval then "_" ++ interval.getD "" else ""
  safe ++ "_" ++ tag ++ endTag ++ intervalTag ++ ".csv"

/-- Rate-limiter configuration: `_RATE_LIMIT_MAX` and `_RATE_LIMIT_WINDOW`
(defaults 60 and 60, both read from the environment). -/
structure RLConfig where
  max : ℕ
  window : ℚ
deriving DecidableEq

/-- Outcome of one admission check: allowed, or rejected with the
`Retry-After` value of the HTTP 429 response. -/
inductive RLResult where
  | allowed
  | rejected (retryAfter : ℤ)
deriving DecidableEq

/-- The pruning comprehension `[t for t in ts_list if t > now - W]`: keeps
exactly the timestamps strictly newer than `now - W`. -/
def prunedList (cfg : RLConfig) (now : ℚ) (stored : List ℚ) : List ℚ :=
  stored.filter (fun t => decide (now - cfg.window < t))

/-- `api._rate_limit_check` for one client identity, with the stored
timestamp list passed and returned explicitly.  Mirrors the body under
`_RL_LOCK`: `ts_list = [t for t in ts_list if t > now - W]`; if
`len(ts_list) >= M`, raise 429 with `Retry-After = int(W - (now - ts_list[0]))`
— the `raise` happens before `_RATE_LIMIT_STATE[ip] = ts_list`, so the stored
list is returned unchanged; otherwise `ts_list.append(now)` and the pruned,
extended list is stored.  (`ts_list[0]` is modelled with `headI`; in Python
it raises `IndexError` when the pruned list is empty, which is reachable only
under the degenerate configuration `max = 0`, excluded by hypothesis in the
theorems below.) -/
def _rate_limit_check (cfg : RLConfig) (now : ℚ) (stored : List ℚ) :
    RLResult × List ℚ :=
  let ts_list := prunedList cfg now stored
  if cfg.max ≤ ts_list.length then
    (RLResult.rejected (pyInt (cfg.window - (now - ts_list.headI))), stored)
  else
    (RLResult.allowed, ts_list ++ [now])

/-- Basic-auth configuration: `_AUTH_USER` / `_AUTH_PASS` environment values
(`none` = unset). -/
structure AuthConfig where
  user : Option String
  pass_ : Option String
deriving DecidableEq

/-- Auth is configured iff `_AUTH_USER and _AUTH_PASS` is truthy, i.e. both
are set and non-empty. -/
def AuthConfig.configured (c : AuthConfig) : Bool :=
  truthy c.user && truthy c.pass_

/-- The `Authorization` header of a request, abstracted past the transport
encoding: `absent` (no header, or a scheme other than `Basic`, so that
`not auth or not auth.lower().startswith('basic ')` holds), `malformed`
(a `Basic` header whose base64 payload fails to decode to `user:pass`),
or decoded `credentials`. -/
inductive AuthHeader where
  | absent
  | malformed
  | credentials (username password : String)
deriving DecidableEq

/-- Result of `api._verify_basic`: the identity string returned, or the
`HTTPException` raised (status, detail, and whether the response carries the
`WWW-Authenticate: Basic` challenge header). -/
inductive VerifyResult where
  | identity (user : String)
  | reject (status : ℕ) (detail : String) (challenge : Bool)
deriving DecidableEq

/-- `api._verify_basic`: if `not (_AUTH_USER and _AUTH_PASS)` return
`'anonymous'`; absent/non-Basic header ⇒ 401 `'Not authenticated'` with
`WWW-Authenticate: Basic`; undecodable payload ⇒ 401
`'Invalid authentication format'` with the same header; otherwise the
username and password are each compared (`secrets.compare_digest`, i.e.
constant-time string equality) against the configured pair, any mismatch ⇒
401 `'Invalid authentication credentials'` with the same header. -/
def _verify_basic (cfg : AuthConfig) (hdr : AuthHeader) : VerifyResult :=
  if !cfg.configured then
    VerifyResult.identity "anonymous"
  else
    match hdr with
    | AuthHeader.absent => VerifyResult.reject 401 "Not authenticated" true
    | AuthHeader.malformed => VerifyResult.reject 401 "Invalid authentication format" true
    | AuthHeader.credentials u p =>
        if u = cfg.user.getD "" ∧ p = cfg.pass_.getD "" then
          VerifyResult.identity u
        else
          VerifyResult.reject 401 "Invalid authentication credentials" true

/-- Outcome of the `fetcher.fetch_data(...)` call inside `download`:
either it returns a value `df` (`isDataFrame` records
`isinstance(df, pd.DataFrame)`, `rows` the rows of the frame, each row
already rendered as one CSV line), or it raises an exception with message
`msg`. -/
inductive FetchOutcome where
  | ok (isDataFrame : Bool) (rows : List String)
  | error (msg : String)
deriving DecidableEq

/-- `df.to_csv()`: the header line followed by one line per row. -/
def to_csv (header : String) (rows : List String) : String :=
  String.intercalate "\n" (header :: rows)

/-- The world one `download` request runs against: the configured TTL
(`_CACHE_TTL`), the current time, the cache entry at the derived cache path
(content and `os.path.getmtime`), whether `fetcher.DATA_DIR` is a directory
and its CSV listing (filename, content), the outcome of the
`fetcher.fetch_data` call, and whether the cache write succeeds. -/
structure Env where
  cacheTTL : ℚ
  now : ℚ
  cacheEntry : Option (String × ℚ)
  dataDirOk : Bool
  dataFiles : List (String × String)
  fetchResult : FetchOutcome
  csvHeader : String
  putSucceeds : Bool

/-- The HTTP response of `download`: a 200 `PlainTextResponse` with a CSV
body, or a raised `HTTPException` with a status code and detail string. -/
inductive Response where
  | ok (body : String)
  | httpError (status : ℕ) (detail : String)
deriving DecidableEq

/-- Observable outcome of one `download` request: the response, whether
`fetcher.fetch_data` was invoked, whether the degraded fallback produced the
response, and the cache entry at the derived path afterwards. -/
structure DownloadResult where
  response : Response
  fetchInvoked : Bool
  usedFallback : Bool
  cacheAfter : Option (String × ℚ)
deriving DecidableEq

/-- Contents of a named file in the data directory (`open(candidate).read()`). -/
def fileContent (files : List (String × String)) (name : String) : String :=
  match files.find? (fun p => p.1 == name) with
  | some p => p.2
  | none => ""

/-- The degraded-fallback candidates: files of `os.listdir(DATA_DIR)` with
`f.endswith('.csv') and symbol.lower() in f.lower()`. -/
def fallbackCandidates (files : List String) (symbol : String) : List String :=
  files.filter (fun f => strEndsWith f ".csv" && strContains (strLower f) (strLower symbol))

/-- The part of `download` from the `try: fetcher.fetch_data(...)` statement
on.  On an exception: if `os.path.isdir(fetcher.DATA_DIR)` and the candidate
list is non-empty, the candidates are sorted (`sorted(files)`, code-point
lexicographic) and the last one's contents are returned as a 200; otherwise
raise `502, f'Failed to fetch data for {symbol}: {exc}'`.  On a returned
value: if `not isinstance(df, pd.DataFrame) or df.empty`, raise
`404, 'No data available'`; else serialize with `df.to_csv()`, attempt the
atomic cache write (any failure swallowed by `except Exception: pass`), and
return the CSV as a 200. -/
def downloadFetch (env : Env) (symbol : String) : DownloadResult :=
  match env.fetchResult with
  | FetchOutcome.error msg =>
      let cands :=
        if env.dataDirOk then fallbackCandidates (env.dataFiles.map Prod.fst) symbol
        else []
      if cands.isEmpty then
        { response := Response.httpError 502
            ("Failed to fetch data for " ++ symbol ++ ": " ++ msg),
          fetchInvoked := true, usedFallback := false, cacheAfter := env.cacheEntry }
      else
        let candidate := (cands.mergeSort strLe).getLastD ""
        { response := Response.ok (fileContent env.dataFiles candidate),
          fetchInvoked := true, usedFallback := true, cacheAfter := env.cacheEntry }
  | FetchOutcome.ok isDF rows =>
      if !isDF || rows.isEmpty then
        { response := Response.httpError 404 "No data available",
          fetchInvoked := true, usedFallback := false, cacheAfter := env.cacheEntry }
      else
        let csv_text := to_csv env.csvHeader rows
        { response := Response.ok csv_text,
          fetchInvoked := true, usedFallback := false,
          cacheAfter :=
            if env.putSucceeds then some (csv_text, env.now) else env.cacheEntry }

/-- `api.download` after the auth and rate-limit dependencies: compute
`cache_path = _cache_filename(...)`; if `not bust_cache and
os.path.exists(cache_path)` and `time.time() - getmtime(cache_path) <=
_CACHE_TTL`, serve the cached file without calling the fetcher; otherwise
run the fetch/fallback logic (`downloadFetch`).  The `save` query parameter
is bound but never read: the fetcher is invoked with `save=False`. -/
def download (env : Env) (symbol : String) (start end_ period interval : Option String)
    (save bust_cache : Bool) : DownloadResult :=
  match bust_cache, env.cacheEntry with
  | false, some (content, mtime) =>
      if env.now - mtime ≤ env.cacheTTL then
        { response := Response.ok content, fetchInvoked := false,
          usedFallback := false, cacheAfter := env.cacheEntry }
      else downloadFetch env symbol
  | false, none => downloadFetch env symbol
  | true, _ => downloadFetch env symbol

/-- The pruning step as the specification words it (`spec.md` §4.3): "prune
timestamps older than `now - W`", i.e. keep every timestamp `t` with
`now - W ≤ t`.  Stated for comparison with the source's filter, which keeps
only `t` with `now - W < t`. -/
def specPrune (window now : ℚ) (ts : List ℚ) : List ℚ :=
  ts.filter (fun t => decide (now - window ≤ t))

/-- A request reaches the `fetcher.fetch_data` call iff the cache fast path
does not fire: the refresh is forced, or there is no entry at the derived
path, or the entry is stale. -/
def reachesFetch (env : Env) (bust_cache : Bool) : Prop :=
  bust_cache = true ∨ env.cacheEntry = none ∨
    ∃ c m, env.cacheEntry = some (c, m) ∧ env.cacheTTL < env.now - m

/-- Concrete environment: the fetch returns an empty `DataFrame`. -/
def envEmptyFetch : Env :=
  { cacheTTL := 0, now := 0, cacheEntry := none, dataDirOk := false,
    dataFiles := [], fetchResult := FetchOutcome.ok true [],
    csvHeader := "Date,Open,High,Low,Close", putSucceeds := true }

/-- Concrete environment: a cache entry written at time 0 with TTL 60,
read exactly at the TTL boundary. -/
def envFreshCache : Env :=
  { cacheTTL := 60, now := 60, cacheEntry := some ("cached-csv", 0),
    dataDirOk := false, dataFiles := [],
    fetchResult := FetchOutcome.error "network down",
    csvHeader := "Date", putSucceeds := true }

/-- Concrete environment: the same cache entry read one second past the TTL. -/
def envStaleCache : Env := { envFreshCache with now := 61 }

/-- Concrete environment: the fetch raises and the data directory holds one
snapshot matching `AAPL` and one that does not. -/
def envFallback : Env :=
  { cacheTTL := 0, now := 0, cacheEntry := none, dataDirOk := true,
    dataFiles := [("AAPL_20240101T000000Z.csv", "stale-aapl-data"),
                  ("MSFT_20240101T000000Z.csv", "msft-data")],
    fetchResult := FetchOutcome.error "yfinance is not available in this environment",
    csvHeader := "Date", putSucceeds := true }

/-- Concrete environment: the fetch returns a one-row table. -/
def envGoodFetch : Env :=
  { cacheTTL := 0, now := 0, cacheEntry := none, dataDirOk := false,
    dataFiles := [], fetchResult := FetchOutcome.ok true ["2024-01-02,1.0,2.0,0.5,1.5"],
    csvHeader := "Date,Open,High,Low,Close", putSucceeds := true }

theorem lexLe_refl (l : List Char) : lexLe l l = true := by
  induction l with
  | nil => rfl
  | cons a t ih => simp [lexLe, if_neg (lt_irrefl a), ih]

theorem lexLe_total (a b : List Char) : (lexLe a b || lexLe b a) = true := by
  induction a generalizing b with
  | nil => simp [lexLe]
  | cons x xs ih =>
    cases b with
    | nil => simp [lexLe]
    | cons y ys =>
      rcases lt_trichotomy x y with h | h | h
      · simp [lexLe, if_pos h]
      · subst h
        simp only [lexLe, if_neg (lt_irrefl x)]
        exact ih ys
      · simp [lexLe, if_pos h, if_neg (lt_asymm h)]

theorem lexLe_trans :
    ∀ (a b c : List Char), lexLe a b = true → lexLe b c = true → lexLe a c = true
  | [], _, _, _, _ => rfl
  | _ :: _, [], _, h1, _ => by simp [lexLe] at h1
  | _ :: _, _ :: _, [], _, h2 => by simp [lexLe] at h2
  | x :: xs, y :: ys, z :: zs, h1, h2 => by
    simp only [lexLe] at h1 h2 ⊢
    rcases lt_trichotomy x y with hxy | hxy | hxy
    · rcases lt_trichotomy y z with hyz | hyz | hyz
      · rw [if_pos (lt_trans hxy hyz)]
      · subst hyz; rw [if_pos hxy]
      · rw [if_neg (lt_asymm hyz), if_pos hyz] at h2; exact absurd h2 (by simp)
    · subst hxy
      rw [if_neg (lt_irrefl x), if_neg (lt_irrefl x)] at h1
      rcases lt_trichotomy x z with hxz | hxz | hxz
      · rw [if_pos hxz]
      · subst hxz
        rw [if_neg (lt_irrefl x), if_neg (lt_irrefl x)] at h2 ⊢
        exact lexLe_trans xs ys zs h1 h2
      · rw [if_neg (lt_asymm hxz), if_pos hxz] at h2; exact absurd h2 (by simp)
    · rw [if_neg (lt_asymm hxy), if_pos hxy] at h1; exact absurd h1 (by simp)

theorem strLe_refl (a : String) : strLe a a = true := lexLe_refl a.data

theorem strLe_total (a b : String) : (strLe a b || strLe b a) = true :=
  lexLe_total a.data b.data

theorem strLe_trans (a b c : String) :
    strLe a b = true → strLe b c = true → strLe a c = true :=
  lexLe_trans a.data b.data c.data

theorem getLastD_mem {α : Type} :
    ∀ (l : List α) (d : α), l ≠ [] → l.getLastD d ∈ l
  | [], _, h => absurd rfl h
  | [a], d, _ => by simp [List.getLastD_cons]
  | a :: b :: t, _, _ => by
    rw [List.getLastD_cons]
    exact List.mem_cons_of_mem a (getLastD_mem (b :: t) a (by simp))

theorem sorted_le_getLastD :
    ∀ (l : List String) (d : String),
      l.Pairwise (fun a b => strLe a b = true) → ∀ x ∈ l, strLe x (l.getLastD d) = true
  | [], _, _, x, hx => absurd hx (List.not_mem_nil x)
  | a :: t, d, hp, x, hx => by
    rw [List.getLastD_cons]
    rcases List.mem_cons.mp hx with rfl | hxt
    · cases t with
      | nil => exact strLe_refl x
      | cons b t2 =>
        have hab : strLe x b = true :=
          (List.pairwise_cons.mp hp).1 b (List.mem_cons_self b t2)
        have hb : strLe b ((b :: t2).getLastD x) = true :=
          sorted_le_getLastD (b :: t2) x (List.pairwise_cons.mp hp).2 b
            (List.mem_cons_self b t2)
        exact strLe_trans _ _ _ hab hb
    · exact sorted_le_getLastD t a (List.pairwise_cons.mp hp).2 x hxt

/-- The last element of `sorted(files)` (as the fallback takes with
`files[-1]`) belongs to `files` and is lexicographically greatest. -/
theorem mergeSort_getLastD_max (l : List String) (hne : l ≠ []) :
    (l.mergeSort strLe).getLastD "" ∈ l ∧
      ∀ x ∈ l, strLe x ((l.mergeSort strLe).getLastD "") = true := by
  have hperm : (l.mergeSort strLe).Perm l := List.mergeSort_perm l strLe
  have hsne : l.mergeSort strLe ≠ [] := by
    intro h
    apply hne
    have hlen := hperm.length_eq
    rw [h] at hlen
    exact List.length_eq_zero.mp hlen.symm
  have hsorted :=
    @List.sorted_mergeSort String strLe (fun a b c => strLe_trans a b c)
      (fun a b => strLe_total a b) l
  refine ⟨hperm.mem_iff.mp (getLastD_mem _ _ hsne), fun x hx => ?_⟩
  exact sorted_le_getLastD _ _ hsorted x (hperm.mem_iff.mpr hx)

/-- When the cache fast path does not fire, `download` runs the
fetch/fallback stage. -/
theorem download_reaches (env : Env) (symbol : String)
    (start end_ period interval : Option String) (save bust_cache : Bool)
    (h : reachesFetch env bust_cache) :
    download env symbol start end_ period interval save bust_cache =
      downloadFetch env symbol := by
  cases bust_cache with
  | true => rfl
  | false =>
    rcases h with h | h | ⟨c, m, hsome, hstale⟩
    · exact absurd h (by simp)
    · simp [download, h]
    · have hne : ¬ (env.now - m ≤ env.cacheTTL) := not_le.mpr hstale
      simp only [download, hsome, if_neg hne]

/-- Every branch of the fetch/fallback stage records that the fetcher was
invoked. -/
theorem downloadFetch_invoked (env : Env) (symbol : String) :
    (downloadFetch env symbol).fetchInvoked = true := by
  unfold downloadFetch
  cases env.fetchResult <;> dsimp only <;> split <;> first | rfl | (split <;> rfl)

theorem headI_mem {α : Type} [Inhabited α] :
    ∀ (l : List α), l ≠ [] → l.headI ∈ l
  | [], h => absurd rfl h
  | a :: t, _ => List.mem_cons_self a t

/-- Evaluation of the rate limiter on a rejected attempt whose stored list
still holds an expired timestamp: with `max = 1`, `window = 2`, stored
timestamps `[0, 5]` and `now = 6`, the pruned list is `[5]`, the attempt is
rejected with `Retry-After 1`, and the stored list is returned unchanged. -/
theorem rl_eval_reject :
    _rate_limit_check ⟨1, 2⟩ 6 [0, 5] = (RLResult.rejected 1, [0, 5]) := by
  have hp : prunedList ⟨1, 2⟩ 6 [0, 5] = [5] := by
    norm_num [prunedList, List.filter]
  simp only [_rate_limit_check, hp]
  norm_num [pyInt]

/-- The degraded fallback is taken only when the fetch call raises: on any
returned value, every branch of `download` reports `usedFallback = false`. -/
theorem usedFallback_requires_error (env : Env) (symbol : String)
    (start end_ period interval : Option String) (save bust_cache : Bool)
    (h : (download env symbol start end_ period interval save bust_cache).usedFallback =
      true) :
    ∃ msg, env.fetchResult = FetchOutcome.error msg := by
  cases hres : env.fetchResult with
  | error msg => exact ⟨msg, rfl⟩
  | ok isDF rows =>
    exfalso
    have hdf : (downloadFetch env symbol).usedFallback = false := by
      simp only [downloadFetch, hres]
      split <;> rfl
    cases bust_cache with
    | true =>
      rw [show download env symbol start end_ period interval save true =
            downloadFetch env symbol from rfl, hdf] at h
      exact Bool.false_ne_true h
    | false =>
      cases hce : env.cacheEntry with
      | none =>
        simp only [download, hce, hdf] at h
        exact Bool.false_ne_true h
      | some pr =>
        obtain ⟨c, m⟩ := pr
        simp only [download, hce] at h
        by_cases hf : env.now - m ≤ env.cacheTTL
        · rw [if_pos hf] at h
          exact Bool.false_ne_true h
        · rw [if_neg hf, hdf] at h
          exact Bool.false_ne_true h

/-- After a successful fetch of a non-empty table, the fetch stage responds
with the serialized table. -/
theorem downloadFetch_ok_response (env : Env) (symbol : String) (rows : List String)
    (hfetch : env.fetchResult = FetchOutcome.ok true rows) (hne : rows ≠ []) :
    (downloadFetch env symbol).response = Response.ok (to_csv env.csvHeader rows) := by
  simp only [downloadFetch, hfetch]
  cases rows with
  | nil => exact absurd rfl hne
  | cons r rest => simp

theorem fresh_boundary_le : (60:ℚ) - 0 ≤ 60 := by norm_num

theorem fresh_boundary_eq : (60:ℚ) = 0 + 60 := by norm_num

theorem stale_boundary_eq : (61:ℚ) = 0 + 60 + 1 := by norm_num

/-- Claim C9: the `save` query parameter has no effect on the download
endpoint: two requests identical except for `save` produce the same
response, the same fetch/fallback behaviour, and the same cache state,
because `save` is bound but never read — the fetcher is always invoked with
`save=False`. -/
theorem C9_save_has_no_effect (env : Env) (symbol : String)
    (start end_ period interval : Option String) (bust_cache save1 save2 : Bool) :
    download env symbol start end_ period interval save1 bust_cache =
      download env symbol start end_ period interval save2 bust_cache := rfl

/-- Claim C10: if exactly one of the basic-auth username and password
settings is configured (the other unset or empty), `_verify_basic` admits
every request as the anonymous identity, exactly as when neither is
configured. -/
theorem C10_half_configured_disables_auth (cfg : AuthConfig)
    (h : (truthy cfg.user = true ∧ truthy cfg.pass_ = false) ∨
      (truthy cfg.user = false ∧ truthy cfg.pass_ = true)) :
    ∀ hdr : AuthHeader, _verify_basic cfg hdr = VerifyResult.identity "anonymous" := by
  intro hdr
  have hc : cfg.configured = false := by
    rcases h with ⟨h1, h2⟩ | ⟨h1, h2⟩ <;> simp [AuthConfig.configured, h1, h2]
  simp [_verify_basic, hc]

theorem C10_half_configured_disables_auth_witness :
    ((truthy (some "demo-user") = true ∧ truthy (none : Option String) = false) ∨
      (truthy (some "demo-user") = false ∧ truthy (none : Option String) = true)) ∧
    _verify_basic ⟨some "demo-user", none⟩ (AuthHeader.credentials "demo-user" "pw") =
      VerifyResult.identity "anonymous" :=
  ⟨Or.inl ⟨by decide, by decide⟩,
   C10_half_configured_disables_auth ⟨some "demo-user", none⟩
     (Or.inl ⟨by decide, by decide⟩) (AuthHeader.credentials "demo-user" "pw")⟩

/-- Claim C6: with no secret pair configured, `_verify_basic` admits every
request (with or without credentials) as the anonymous identity; with a pair
configured, a missing credential is rejected 401 `'Not authenticated'` with
the `WWW-Authenticate: Basic` challenge, and a present credential with a
wrong username or password is rejected with the same status code and shape
(401, a string detail, the same challenge marker). -/
theorem C6_auth_gate (cfg : AuthConfig) :
    (cfg.configured = false →
      ∀ hdr, _verify_basic cfg hdr = VerifyResult.identity "anonymous") ∧
    (cfg.configured = true →
      _verify_basic cfg AuthHeader.absent =
          VerifyResult.reject 401 "Not authenticated" true ∧
      ∀ u p, ¬(u = cfg.user.getD "" ∧ p = cfg.pass_.getD "") →
        ∃ d, _verify_basic cfg (AuthHeader.credentials u p) =
          VerifyResult.reject 401 d true) := by
  refine ⟨fun hc hdr => by simp [_verify_basic, hc], fun hc => ⟨?_, ?_⟩⟩
  · simp [_verify_basic, hc]
  · intro u p hne
    exact ⟨"Invalid authentication credentials", by simp [_verify_basic, hc, if_neg hne]⟩

theorem C6_auth_gate_witness :
    _verify_basic ⟨some "demo-user", some "demo-pass"⟩ AuthHeader.absent =
        VerifyResult.reject 401 "Not authenticated" true ∧
    (∃ d, _verify_basic ⟨some "demo-user", some "demo-pass"⟩
        (AuthHeader.credentials "demo-user" "wrong-pass") =
      VerifyResult.reject 401 d true) ∧
    _verify_basic ⟨none, none⟩ AuthHeader.absent = VerifyResult.identity "anonymous" :=
  ⟨((C6_auth_gate ⟨some "demo-user", some "demo-pass"⟩).2 (by decide)).1,
   ((C6_auth_gate ⟨some "demo-user", some "demo-pass"⟩).2 (by decide)).2
     "demo-user" "wrong-pass" (by decide),
   (C6_auth_gate ⟨none, none⟩).1 (by decide) AuthHeader.absent⟩

/-- Claim C2 fails on the code: the key does not change when `start` alone
changes, because the tag is `period or start or 'latest'` — with `period`
set, `start` is ignored, so two requests with different `start` values map
to the same key. -/
theorem C2_key_not_injective_counterexample :
    _cache_filename "AAPL" (some "2024-01-01") none (some "1mo") none =
        _cache_filename "AAPL" (some "2024-02-02") none (some "1mo") none ∧
      (some "2024-01-01" : Option String) ≠ some "2024-02-02" :=
  ⟨rfl, by decide⟩

/-- Claim C2 amended: `_cache_filename` is deterministic (identical inputs
give an identical key), but injectivity fails exactly as the counterexample
shows: whenever `period` is truthy the key is independent of `start`. -/
theorem C2_key_deterministic (symbol : String)
    (start end_ period interval : Option String) :
    _cache_filename symbol start end_ period interval =
        _cache_filename symbol start end_ period interval ∧
      ∀ start2 p, truthy p = true →
        _cache_filename symbol start end_ p interval =
          _cache_filename symbol start2 end_ p interval := by
  refine ⟨rfl, fun start2 p hp => ?_⟩
  cases p with
  | none => simp [truthy] at hp
  | some s =>
    simp only [truthy, Bool.not_eq_true'] at hp
    simp [_cache_filename, pyOr, hp]

theorem C2_key_deterministic_witness :
    truthy (some "1mo") = true ∧
    _cache_filename "AAPL" (some "2024-01-01") none (some "1mo") none =
      _cache_filename "AAPL" (some "2024-02-02") none (some "1mo") none :=
  ⟨by decide,
   (C2_key_deterministic "AAPL" (some "2024-01-01") none (some "1mo") none).2
     (some "2024-02-02") (some "1mo") (by decide)⟩

/-- Claim C1: when the request reaches the fetch stage and the
`fetcher.fetch_data` call returns (succeeds) with an empty or invalid table
(`not isinstance(df, pd.DataFrame) or df.empty`), the endpoint terminates
with 404 `'No data available'`; and the degraded fallback is used only when
the fetch call raises, never on a returned empty result. -/
theorem C1_empty_table_404 (env : Env) (symbol : String)
    (start end_ period interval : Option String) (save bust_cache : Bool)
    (isDF : Bool) (rows : List String)
    (hreach : reachesFetch env bust_cache)
    (hfetch : env.fetchResult = FetchOutcome.ok isDF rows)
    (hempty : isDF = false ∨ rows = []) :
    (download env symbol start end_ period interval save bust_cache).response =
        Response.httpError 404 "No data available" ∧
      ∀ (env2 : Env) (symbol2 : String) (start2 end2 period2 interval2 : Option String)
        (save2 bust2 : Bool),
        (download env2 symbol2 start2 end2 period2 interval2 save2 bust2).usedFallback =
            true →
          ∃ msg, env2.fetchResult = FetchOutcome.error msg := by
  constructor
  · rw [download_reaches env symbol start end_ period interval save bust_cache hreach]
    simp only [downloadFetch, hfetch]
    rcases hempty with h | h <;> subst h <;> simp
  · intro env2 symbol2 start2 end2 period2 interval2 save2 bust2 hfb
    exact usedFallback_requires_error env2 symbol2 start2 end2 period2 interval2
      save2 bust2 hfb

theorem C1_empty_table_404_witness :
    reachesFetch envEmptyFetch false ∧
    (download envEmptyFetch "AAPL" none none (some "1mo") none false false).response =
      Response.httpError 404 "No data available" :=
  ⟨Or.inr (Or.inl rfl),
   (C1_empty_table_404 envEmptyFetch "AAPL" none none (some "1mo") none false false
     true [] (Or.inr (Or.inl rfl)) rfl (Or.inr rfl)).1⟩

/-- Claim C4: with `bust_cache` false and a cache entry at the derived key,
any age ≤ TTL serves the cached file content as the 200 response without
invoking the fetcher; an entry written at `t0` is still fresh at exactly
`t0 + TTL`, and at `t0 + TTL + 1` it is stale — the cache lookup no longer
terminates the request and the fetch stage runs. -/
theorem C4_cache_freshness (env : Env) (symbol : String)
    (start end_ period interval : Option String) (save : Bool)
    (content : String) (mtime : ℚ)
    (hentry : env.cacheEntry = some (content, mtime)) :
    (env.now - mtime ≤ env.cacheTTL →
        (download env symbol start end_ period interval save false).response =
            Response.ok content ∧
          (download env symbol start end_ period interval save false).fetchInvoked =
            false) ∧
    (env.now = mtime + env.cacheTTL →
        (download env symbol start end_ period interval save false).response =
          Response.ok content) ∧
    (env.now = mtime + env.cacheTTL + 1 →
        (download env symbol start end_ period interval save false).fetchInvoked =
          true) := by
  refine ⟨fun hfresh => ?_, fun heq => ?_, fun heq => ?_⟩
  · have hd : download env symbol start end_ period interval save false =
        { response := Response.ok content, fetchInvoked := false,
          usedFallback := false, cacheAfter := env.cacheEntry } := by
      simp only [download, hentry, if_pos hfresh]
    rw [hd]
    exact ⟨rfl, rfl⟩
  · have hfresh : env.now - mtime ≤ env.cacheTTL := by rw [heq]; linarith
    simp only [download, hentry, if_pos hfresh]
  · have hstale : ¬ (env.now - mtime ≤ env.cacheTTL) := by
      rw [heq]; intro hcontra; linarith
    simp only [download, hentry, if_neg hstale]
    exact downloadFetch_invoked env symbol

theorem C4_cache_freshness_witness :
    ((60:ℚ) - 0 ≤ 60 ∧
      (download envFreshCache "AAPL" none none (some "1mo") none false false).response =
          Response.ok "cached-csv" ∧
      (download envFreshCache "AAPL" none none (some "1mo") none false
          false).fetchInvoked = false) ∧
    ((61:ℚ) = 0 + 60 + 1 ∧
      (download envStaleCache "AAPL" none none (some "1mo") none false
          false).fetchInvoked = true) :=
  ⟨⟨fresh_boundary_le,
    (C4_cache_freshness envFreshCache "AAPL" none none (some "1mo") none false
      "cached-csv" 0 rfl).1 fresh_boundary_le⟩,
   ⟨stale_boundary_eq,
    (C4_cache_freshness envStaleCache "AAPL" none none (some "1mo") none false
      "cached-csv" 0 rfl).2.2 stale_boundary_eq⟩⟩

/-- Claim C7: a failure of the cache write never propagates to the
requester: after a successful fetch of a non-empty table, the response is
the fetched table's CSV whether the write succeeds or fails, identical in
both cases. -/
theorem C7_put_failure_nonfatal (env : Env) (symbol : String)
    (start end_ period interval : Option String) (save bust_cache : Bool)
    (rows : List String)
    (hreach : reachesFetch env bust_cache)
    (hfetch : env.fetchResult = FetchOutcome.ok true rows)
    (hne : rows ≠ []) :
    ∀ p : Bool,
      (download { env with putSucceeds := p } symbol start end_ period interval save
          bust_cache).response = Response.ok (to_csv env.csvHeader rows) := by
  intro p
  have hreach2 : reachesFetch { env with putSucceeds := p } bust_cache := hreach
  rw [download_reaches _ symbol start end_ period interval save bust_cache hreach2]
  exact downloadFetch_ok_response { env with putSucceeds := p } symbol rows hfetch hne

theorem C7_put_failure_nonfatal_witness :
    reachesFetch envGoodFetch false ∧
    (download { envGoodFetch with putSucceeds := false } "AAPL" none none (some "1mo")
        none false false).response =
      Response.ok (to_csv envGoodFetch.csvHeader ["2024-01-02,1.0,2.0,0.5,1.5"]) ∧
    (download { envGoodFetch with putSucceeds := true } "AAPL" none none (some "1mo")
        none false false).response =
      Response.ok (to_csv envGoodFetch.csvHeader ["2024-01-02,1.0,2.0,0.5,1.5"]) :=
  ⟨Or.inr (Or.inl rfl),
   C7_put_failure_nonfatal envGoodFetch "AAPL" none none (some "1mo") none false false
     ["2024-01-02,1.0,2.0,0.5,1.5"] (Or.inr (Or.inl rfl)) rfl
     (List.cons_ne_nil _ _) false,
   C7_put_failure_nonfatal envGoodFetch "AAPL" none none (some "1mo") none false false
     ["2024-01-02,1.0,2.0,0.5,1.5"] (Or.inr (Or.inl rfl)) rfl
     (List.cons_ne_nil _ _) true⟩

/-- Claim C5: when the request reaches the fetch stage and the fetch call
raises: if the data directory exists and at least one `.csv` file there
contains the symbol case-insensitively, the endpoint returns 200 with the
content of the lexicographically-last such candidate; if there is no such
snapshot, it raises 502 with detail
`'Failed to fetch data for <symbol>: <upstream error>'`. -/
theorem C5_degraded_fallback (env : Env) (symbol msg : String)
    (start end_ period interval : Option String) (save bust_cache : Bool)
    (hreach : reachesFetch env bust_cache)
    (hfetch : env.fetchResult = FetchOutcome.error msg) :
    (env.dataDirOk = true →
        fallbackCandidates (env.dataFiles.map Prod.fst) symbol ≠ [] →
        ∃ c, c ∈ fallbackCandidates (env.dataFiles.map Prod.fst) symbol ∧
          (∀ g ∈ fallbackCandidates (env.dataFiles.map Prod.fst) symbol,
              strLe g c = true) ∧
          (download env symbol start end_ period interval save bust_cache).response =
            Response.ok (fileContent env.dataFiles c)) ∧
    ((env.dataDirOk = false ∨
        fallbackCandidates (env.dataFiles.map Prod.fst) symbol = []) →
      (download env symbol start end_ period interval save bust_cache).response =
        Response.httpError 502 ("Failed to fetch data for " ++ symbol ++ ": " ++ msg)) := by
  rw [download_reaches env symbol start end_ period interval save bust_cache hreach]
  constructor
  · intro hdir hne
    obtain ⟨hmem, hmax⟩ :=
      mergeSort_getLastD_max (fallbackCandidates (env.dataFiles.map Prod.fst) symbol) hne
    refine ⟨((fallbackCandidates (env.dataFiles.map Prod.fst) symbol).mergeSort
        strLe).getLastD "", hmem, hmax, ?_⟩
    simp only [downloadFetch, hfetch, hdir, if_pos]
    rw [if_neg (by simp [List.isEmpty_iff, hne])]
  · intro hcase
    simp only [downloadFetch, hfetch]
    rcases hcase with hdir | hnil
    · simp [hdir]
    · cases hdir2 : env.dataDirOk <;> simp [hdir2, hnil]

theorem C5_degraded_fallback_witness :
    reachesFetch envFallback false ∧
    (∃ c, c ∈ fallbackCandidates (envFallback.dataFiles.map Prod.fst) "AAPL" ∧
      (∀ g ∈ fallbackCandidates (envFallback.dataFiles.map Prod.fst) "AAPL",
          strLe g c = true) ∧
      (download envFallback "AAPL" none none (some "1mo") none false false).response =
        Response.ok (fileContent envFallback.dataFiles c)) :=
  ⟨Or.inr (Or.inl rfl),
   (C5_degraded_fallback envFallback "AAPL"
       "yfinance is not available in this environment" none none (some "1mo") none
       false false (Or.inr (Or.inl rfl)) rfl).1 rfl (by decide)⟩

/-- Claim C3 fails at the window boundary: the specification prunes
"timestamps older than `now - W`", keeping a timestamp exactly `W` old, but
the source keeps only `t > now - W`.  With `M = 1`, `W = 2`, one stored
timestamp at 4 and `now = 6`, the spec-side prune keeps the timestamp (count
1 ≥ M, so the claim demands rejection) while the code prunes it and allows
the request. -/
theorem C3_prune_boundary_counterexample :
    1 ≤ (specPrune 2 6 [4]).length ∧
      (_rate_limit_check ⟨1, 2⟩ 6 [4]).1 = RLResult.allowed := by
  constructor
  · norm_num [specPrune, List.filter]
  · have hp : prunedList ⟨1, 2⟩ 6 [4] = [] := by
      norm_num [prunedList, List.filter]
    simp [_rate_limit_check, hp]

/-- Claim C3 amended: the pruning keeps exactly the timestamps `t` with
`t > now - W` (a timestamp exactly `W` old is pruned as well); on the pruned
list the source behaves as claimed: count ≥ M rejects with
`retryAfter = int(W - (now - oldest_remaining))`, which is never negative,
and count < M appends `now` and allows.  With `M = 2`, `W = 2`, three
requests at times 0, 1/2 and 1 from one identity give Allowed, Allowed, then
Rejected with `retryAfter = 1 > 0`. -/
theorem C3_sliding_window (cfg : RLConfig) (now : ℚ) (stored : List ℚ)
    (hM : 0 < cfg.max) :
    (cfg.max ≤ (prunedList cfg now stored).length →
        _rate_limit_check cfg now stored =
            (RLResult.rejected
              (pyInt (cfg.window - (now - (prunedList cfg now stored).headI))),
              stored) ∧
          0 ≤ pyInt (cfg.window - (now - (prunedList cfg now stored).headI))) ∧
    ((prunedList cfg now stored).length < cfg.max →
        _rate_limit_check cfg now stored =
          (RLResult.allowed, prunedList cfg now stored ++ [now])) ∧
    (_rate_limit_check ⟨2, 2⟩ 0 [] = (RLResult.allowed, [0]) ∧
      _rate_limit_check ⟨2, 2⟩ (1/2) [0] = (RLResult.allowed, [0, 1/2]) ∧
      _rate_limit_check ⟨2, 2⟩ 1 [0, 1/2] = (RLResult.rejected 1, [0, 1/2])) := by
  refine ⟨fun hrej => ⟨?_, ?_⟩, fun hall => ?_, ?_, ?_, ?_⟩
  · simp only [_rate_limit_check, if_pos hrej]
  · have hne : prunedList cfg now stored ≠ [] := by
      intro h0
      rw [h0] at hrej
      simp at hrej
      omega
    have hmem : (prunedList cfg now stored).headI ∈ prunedList cfg now stored :=
      headI_mem _ hne
    have hall : ∀ x ∈ prunedList cfg now stored, now - cfg.window < x := by
      intro x hx
      unfold prunedList at hx
      have hx2 := List.mem_filter.mp hx
      exact of_decide_eq_true hx2.2
    have hgt : now - cfg.window < (prunedList cfg now stored).headI := hall _ hmem
    have hx : 0 ≤ cfg.window - (now - (prunedList cfg now stored).headI) := by linarith
    rw [pyInt, if_pos hx]
    exact Int.floor_nonneg.mpr hx
  · simp only [_rate_limit_check, if_neg (not_le.mpr hall)]
  · rfl
  · have hp : prunedList ⟨2, 2⟩ (1/2) [0] = [0] := by
      norm_num [prunedList, List.filter]
    simp only [_rate_limit_check, hp]
    norm_num
  · have hp : prunedList ⟨2, 2⟩ 1 [0, 1/2] = [0, 1/2] := by
      norm_num [prunedList, List.filter]
    simp only [_rate_limit_check, hp]
    norm_num [pyInt]

theorem C3_sliding_window_witness :
    0 < (2:ℕ) ∧
    _rate_limit_check ⟨2, 2⟩ 1 [0, 1/2] = (RLResult.rejected 1, [0, 1/2]) :=
  ⟨by decide, (C3_sliding_window ⟨2, 2⟩ 1 [0, 1/2] (by decide)).2.2.2.2⟩

/-- Claim C8 fails on the code: on a rejected attempt the stored timestamp
sequence is not mutated at all — the pruning happens on a local copy and the
`raise` precedes the write-back.  With `max = 1`, `window = 2`, stored
`[0, 5]` and `now = 6`, the attempt is rejected and the stored list is still
`[0, 5]`, including the expired timestamp 0 (expired because `0 ≤ 6 - 2`). -/
theorem C8_reject_state_counterexample :
    (_rate_limit_check ⟨1, 2⟩ 6 [0, 5]).1 = RLResult.rejected 1 ∧
    (_rate_limit_check ⟨1, 2⟩ 6 [0, 5]).2 = [0, 5] ∧
    (0:ℚ) ≤ 6 - 2 := by
  refine ⟨?_, ?_, by norm_num⟩ <;> rw [rl_eval_reject]

/-- Claim C8 amended: the stored per-identity sequence is mutated only on
admitted attempts, where it becomes the pruned list with the attempt's
timestamp appended; on a rejected attempt the stored sequence is returned
unchanged (pruning is applied to a local copy only), and the attempt's own
timestamp is recorded only if it is admitted. -/
theorem C8_state_mutation (cfg : RLConfig) (now : ℚ) (stored : List ℚ) :
    ((_rate_limit_check cfg now stored).1 = RLResult.allowed →
        (_rate_limit_check cfg now stored).2 = prunedList cfg now stored ++ [now]) ∧
    (∀ r, (_rate_limit_check cfg now stored).1 = RLResult.rejected r →
        (_rate_limit_check cfg now stored).2 = stored) := by
  by_cases h : cfg.max ≤ (prunedList cfg now stored).length
  · refine ⟨fun hc => ?_, fun r _ => ?_⟩
    · exfalso
      simp only [_rate_limit_check, if_pos h] at hc
      exact RLResult.noConfusion hc
    · simp only [_rate_limit_check, if_pos h]
  · refine ⟨fun _ => ?_, fun r hc => ?_⟩
    · simp only [_rate_limit_check, if_neg h]
    · exfalso
      simp only [_rate_limit_check, if_neg h] at hc
      exact RLResult.noConfusion hc

theorem C8_state_mutation_witness :
    (_rate_limit_check ⟨1, 2⟩ 6 [0, 5]).2 = [0, 5] ∧
    (_rate_limit_check ⟨2, 2⟩ 0 []).2 = prunedList ⟨2, 2⟩ 0 [] ++ [0] :=
  ⟨(C8_state_mutation ⟨1, 2⟩ 6 [0, 5]).2 1
      (congrArg Prod.fst rl_eval_reject),
   (C8_state_mutation ⟨2, 2⟩ 0 []).1 rfl⟩

end Tradingui
